import Mathlib

/-!
Verification of the users CRUD service of zcking/go-api-template.

The development shallowly embeds the hand-written Go code:

* the `users` table and its id sequence (migration file:
  `CREATE SEQUENCE seq_users_id START 1`, `CREATE TABLE users (id INTEGER
  PRIMARY KEY DEFAULT nextval, email TEXT NOT NULL, name TEXT NOT NULL)`)
  become a `DB` of raw rows plus the sequence counter;
* `database/sql` scanning (`rows.Scan`) becomes `scanUser`, a conversion of
  raw column values that fails on a non-numeric id column;
* `internal/users/create_user.go` and `internal/users/list_users.go` (the
  `Service` methods), and `internal/database.go` / `internal/server.go`
  (`Database` and `UsersServer`) become state-passing functions returning
  `Except StoreError`;
* `cmd/server/main.go` contributes `getEnvOrDefault`, `runMigrations`, the
  startup order and the signal-handler shutdown order, modelled as pure
  functions over the outcomes of the external effects.
-/

namespace ApiTemplate

/-- Raw SQL column value as delivered by the driver: the users columns are
INTEGER or TEXT. -/
inductive SqlValue where
  | int (i : Int)
  | text (s : String)
deriving DecidableEq, Repr

/-- Value of a decimal digit character, `none` for any other character
(the per-character step of `strconv.ParseInt`). -/
def decDigit (c : Char) : Option Nat :=
  if '0' ≤ c ∧ c ≤ '9' then some (c.toNat - '0'.toNat) else none

/-- Accumulating decimal parse of `strconv.ParseInt`'s digit loop: fails
on the first non-digit character, and on an empty digit string the
accumulator stays `none`. -/
def parseNatChars : List Char → Option Nat → Option Nat
  | [], acc => acc
  | c :: cs, acc =>
    match decDigit c, acc with
    | some d, some n => parseNatChars cs (some (n * 10 + d))
    | some d, none => parseNatChars cs (some d)
    | none, _ => none

/-- `strconv.ParseInt(s, 10, 64)` as used by `database/sql` convertAssign
when scanning a textual column into an int64: an optional leading minus
sign followed by at least one decimal digit. -/
def parseInt64 (s : String) : Option Int :=
  match s.data with
  | '-' :: rest => (parseNatChars rest none).map (fun n => -(n : Int))
  | ds => (parseNatChars ds none).map (fun n => (n : Int))

/-- Conversion of a column value into an int64 destination, as
`database/sql` convertAssign does for `rows.Scan(&user.Id, ...)`:
an integer column is taken as is, a text column is parsed, anything
non-numeric is a scan error. -/
def SqlValue.asInt : SqlValue → Option Int
  | SqlValue.int i => some i
  | SqlValue.text s => parseInt64 s

/-- Conversion of a column value into a string destination
(`rows.Scan(..., &user.Email, &user.Name)`); this conversion always
succeeds. -/
def SqlValue.asString : SqlValue → String
  | SqlValue.int i => toString i
  | SqlValue.text s => s

/-- One stored row of the `users` table, in column order id, email, name
(the order `SELECT * FROM users` delivers per the migration). -/
structure Row where
  idCol : SqlValue
  emailCol : SqlValue
  nameCol : SqlValue
deriving DecidableEq, Repr

/-- The persistent state behind the connection: the `users` table content
and the `seq_users_id` sequence counter (next value to hand out). -/
structure DB where
  rows : List Row
  nextId : Int
deriving DecidableEq, Repr

/-- The state right after the migration `000001_create_users_table.up.sql`
ran on a fresh database: empty table, sequence `START 1`. -/
def initialDB : DB := { rows := [], nextId := 1 }

/-- The `users` protobuf message `User {id: int64, email, name: string}`. -/
structure User where
  id : Int
  email : String
  name : String
deriving DecidableEq, Repr

/-- The `CreateUserRequest` protobuf message. -/
structure CreateUserRequest where
  email : String
  name : String
deriving DecidableEq, Repr

/-- The `CreateUserResponse` protobuf message. -/
structure CreateUserResponse where
  user : User
deriving DecidableEq, Repr

/-- The `ListUsersRequest` protobuf message (no fields). -/
structure ListUsersRequest where
deriving DecidableEq, Repr

/-- The `ListUsersResponse` protobuf message. -/
structure ListUsersResponse where
  users : List User
deriving DecidableEq, Repr

/-- Errors surfaced by the `*sql.DB` handle: the query itself failing
(connection down), or `Scan` failing to convert a column. -/
inductive StoreError where
  | connectionFailed
  | scanError
deriving DecidableEq, Repr

/-- Semantics of `INSERT INTO users (email, name) VALUES ($1, $2)
RETURNING id` on the migrated schema: the id column defaults to
`nextval('seq_users_id')`, so the new row gets the current counter value,
the counter advances, and the statement returns the assigned id. -/
def DB.insertUser (db : DB) (email name : String) : SqlValue × DB :=
  (SqlValue.int db.nextId,
   { rows := db.rows ++
       [{ idCol := SqlValue.int db.nextId,
          emailCol := SqlValue.text email,
          nameCol := SqlValue.text name }],
     nextId := db.nextId + 1 })

/-- The `*sql.DB` handle: connection health plus the database state it
reaches. -/
structure SqlDB where
  connOk : Bool
  store : DB
deriving DecidableEq, Repr

/-- `db.QueryContext(ctx, "SELECT * FROM users")`: fails when the
connection is unavailable, otherwise delivers all stored rows in
store-native order. -/
def SqlDB.queryUsersRows (db : SqlDB) : Except StoreError (List Row) :=
  if db.connOk then Except.ok db.store.rows
  else Except.error StoreError.connectionFailed

/-- `db.QueryRowContext(ctx, "INSERT INTO users ... RETURNING id;", email,
name)`: fails when the connection is unavailable, otherwise runs
`DB.insertUser` and delivers the returned id column. -/
def SqlDB.insertUserReturningId (db : SqlDB) (email name : String) :
    Except StoreError (SqlValue × SqlDB) :=
  if db.connOk then
    let r := db.store.insertUser email name
    Except.ok (r.1, { db with store := r.2 })
  else Except.error StoreError.connectionFailed

/-- `rows.Scan(&user.Id, &user.Email, &user.Name)` for one row of
`SELECT * FROM users`: fails exactly when the id column does not convert
to an int64. -/
def scanUser (r : Row) : Option User :=
  match r.idCol.asInt with
  | none => none
  | some i => some { id := i, email := r.emailCol.asString, name := r.nameCol.asString }

/-- The scan loop of `ListUsers` / `GetUsers`: `for rows.Next() { ...
rows.Scan ... }`, returning an error on the first row that fails to scan
and the accumulated users otherwise. -/
def scanRows : List Row → Option (List User)
  | [] => some []
  | r :: rs =>
    match scanUser r with
    | none => none
    | some u =>
      match scanRows rs with
      | none => none
      | some us => some (u :: us)

/-- The gRPC service of `internal/users/service.go`: holds the `*sql.DB`
handle. -/
structure Service where
  db : SqlDB
deriving DecidableEq, Repr

/-- `Service.CreateUser` from `internal/users/create_user.go`: issue the
INSERT ... RETURNING id, scan the returned id into an int64, and build
the response from the assigned id and the request's email and name. -/
def Service.CreateUser (s : Service) (req : CreateUserRequest) :
    Except StoreError (CreateUserResponse × Service) :=
  match s.db.insertUserReturningId req.email req.name with
  | Except.error e => Except.error e
  | Except.ok (idVal, db2) =>
    match idVal.asInt with
    | none => Except.error StoreError.scanError
    | some userID =>
      Except.ok ({ user := { id := userID, email := req.email, name := req.name } },
                 { db := db2 })

/-- `Service.ListUsers` from `internal/users/list_users.go`: query all
rows, scan each into a `User`, return the error of the first failing scan
or the full list. -/
def Service.ListUsers (s : Service) (_req : ListUsersRequest) :
    Except StoreError ListUsersResponse :=
  match s.db.queryUsersRows with
  | Except.error e => Except.error e
  | Except.ok rows =>
    match scanRows rows with
    | none => Except.error StoreError.scanError
    | some us => Except.ok { users := us }

/-- The record store of `internal/database.go`: holds the `*sql.DB`
handle. -/
structure Database where
  db : SqlDB
deriving DecidableEq, Repr

/-- `Database.CreateUser` from `internal/database.go`. -/
def Database.CreateUser (d : Database) (req : CreateUserRequest) :
    Except StoreError (CreateUserResponse × Database) :=
  match d.db.insertUserReturningId req.email req.name with
  | Except.error e => Except.error e
  | Except.ok (idVal, db2) =>
    match idVal.asInt with
    | none => Except.error StoreError.scanError
    | some userID =>
      Except.ok ({ user := { id := userID, email := req.email, name := req.name } },
                 { db := db2 })

/-- `Database.GetUsers` from `internal/database.go`. -/
def Database.GetUsers (d : Database) :
    Except StoreError ListUsersResponse :=
  match d.db.queryUsersRows with
  | Except.error e => Except.error e
  | Except.ok rows =>
    match scanRows rows with
    | none => Except.error StoreError.scanError
    | some us => Except.ok { users := us }

/-- The RPC facade of `internal/server.go`: wraps the record store. -/
structure UsersServer where
  db : Database
deriving DecidableEq, Repr

/-- `UsersServer.CreateUser` from `internal/server.go`:
`return s.db.CreateUser(ctx, req)`. -/
def UsersServer.CreateUser (s : UsersServer) (req : CreateUserRequest) :
    Except StoreError (CreateUserResponse × Database) :=
  Database.CreateUser s.db req

/-- `UsersServer.ListUsers` from `internal/server.go`:
`return s.db.GetUsers(ctx)`. -/
def UsersServer.ListUsers (s : UsersServer) (_req : ListUsersRequest) :
    Except StoreError ListUsersResponse :=
  Database.GetUsers s.db

/-- Well-formedness of a database state actually produced by the migrated
schema: every stored id column is an integer strictly below the sequence
counter (the counter only ever hands out fresh values). -/
def DB.WF (db : DB) : Prop :=
  ∀ r ∈ db.rows, ∃ i : Int, r.idCol = SqlValue.int i ∧ i < db.nextId

/-- Scanning a concatenation scans both parts and appends the results. -/
theorem scanRows_append (xs ys : List Row) :
    scanRows (xs ++ ys) =
      (scanRows xs).bind (fun a => (scanRows ys).map (fun b => a ++ b)) := by
  induction xs with
  | nil =>
    simp [scanRows]
  | cons r rs ih =>
    cases hu : scanUser r with
    | none => simp [scanRows, hu]
    | some u =>
      cases ha : scanRows rs with
      | none => simp [scanRows, hu, ha, ih]
      | some a =>
        cases hb : scanRows ys with
        | none => simp [scanRows, hu, ha, hb, ih]
        | some b => simp [scanRows, hu, ha, hb, ih]

/-- Rows whose id columns are integers below a bound all scan, and the
scanned users keep their ids below that bound. -/
theorem scanRows_of_bounded (N : Int) :
    ∀ rows : List Row,
      (∀ r ∈ rows, ∃ i : Int, r.idCol = SqlValue.int i ∧ i < N) →
      ∃ us, scanRows rows = some us ∧ ∀ u ∈ us, u.id < N := by
  intro rows
  induction rows with
  | nil => intro _; exact ⟨[], rfl, by intro u hu; exact absurd hu (List.not_mem_nil u)⟩
  | cons r rs ih =>
    intro h
    obtain ⟨i, hid, hlt⟩ := h r (List.mem_cons_self r rs)
    obtain ⟨us, hscan, hbound⟩ := ih (fun r' hr' => h r' (List.mem_cons_of_mem r hr'))
    refine ⟨{ id := i, email := r.emailCol.asString, name := r.nameCol.asString } :: us, ?_, ?_⟩
    · simp [scanRows, scanUser, hid, SqlValue.asInt, hscan]
    · intro u hu
      rcases List.mem_cons.mp hu with h1 | h2
      · rw [h1]; exact hlt
      · exact hbound u h2

/-- A list containing a row that fails to scan never scans as a whole. -/
theorem scanRows_none_of_bad :
    ∀ (rows : List Row) (r : Row), r ∈ rows → scanUser r = none →
      scanRows rows = none := by
  intro rows
  induction rows with
  | nil => intro r hr _; exact absurd hr (List.not_mem_nil r)
  | cons x xs ih =>
    intro r hr hbad
    rcases List.mem_cons.mp hr with h1 | h2
    · subst h1; simp [scanRows, hbad]
    · simp only [scanRows]
      cases hx : scanUser x with
      | none => rfl
      | some u => rw [ih r h2 hbad]

/-- Claim C2: a successful `CreateUser` returns a fully populated user:
its email and name are the request's email and name, and its id is exactly
the value the INSERT ... RETURNING id statement delivered (the
store-assigned identifier). -/
theorem createUser_returns_populated_entity
    (s : Service) (req : CreateUserRequest) (hok : s.db.connOk = true) :
    ∃ resp s2,
      Service.CreateUser s req = Except.ok (resp, s2) ∧
      s.db.insertUserReturningId req.email req.name =
        Except.ok (SqlValue.int resp.user.id, s2.db) ∧
      resp.user.email = req.email ∧
      resp.user.name = req.name := by
  refine ⟨{ user := { id := s.db.store.nextId, email := req.email, name := req.name } },
          { db := { s.db with store := (s.db.store.insertUser req.email req.name).2 } },
          ?_, ?_, rfl, rfl⟩
  · simp [Service.CreateUser, SqlDB.insertUserReturningId, hok, DB.insertUser, SqlValue.asInt]
  · simp [SqlDB.insertUserReturningId, hok, DB.insertUser]

/-- Witness for claim C2 at a concrete connected service. -/
theorem createUser_returns_populated_entity_witness :
    ∃ resp s2,
      Service.CreateUser { db := { connOk := true, store := initialDB } }
          { email := "jdoe@example.com", name := "John Doe" } = Except.ok (resp, s2) ∧
      SqlDB.insertUserReturningId { connOk := true, store := initialDB }
          "jdoe@example.com" "John Doe" = Except.ok (SqlValue.int resp.user.id, s2.db) ∧
      resp.user.email = "jdoe@example.com" ∧
      resp.user.name = "John Doe" :=
  createUser_returns_populated_entity
    { db := { connOk := true, store := initialDB } }
    { email := "jdoe@example.com", name := "John Doe" } rfl

/-- Claim C5: against a connected store whose table has no rows,
`ListUsers` returns the empty sequence and no error. -/
theorem listUsers_empty_table
    (s : Service) (req : ListUsersRequest)
    (hok : s.db.connOk = true) (hempty : s.db.store.rows = []) :
    Service.ListUsers s req = Except.ok { users := [] } := by
  simp [Service.ListUsers, SqlDB.queryUsersRows, hok, hempty, scanRows]

/-- Witness for claim C5 at the freshly migrated empty database. -/
theorem listUsers_empty_table_witness :
    Service.ListUsers { db := { connOk := true, store := initialDB } }
        ListUsersRequest.mk = Except.ok { users := [] } :=
  listUsers_empty_table { db := { connOk := true, store := initialDB } }
    ListUsersRequest.mk rfl rfl

/-- Claim C4: two sequential `CreateUser` calls with the identical request
both succeed (no uniqueness is enforced on email by the schema) and the
two returned users carry distinct identifiers. -/
theorem createUser_duplicate_emails_distinct_ids
    (s : Service) (req : CreateUserRequest) (hok : s.db.connOk = true) :
    ∃ resp1 s1 resp2 s2,
      Service.CreateUser s req = Except.ok (resp1, s1) ∧
      Service.CreateUser s1 req = Except.ok (resp2, s2) ∧
      resp1.user.email = req.email ∧ resp2.user.email = req.email ∧
      resp1.user.name = req.name ∧ resp2.user.name = req.name ∧
      resp1.user.id ≠ resp2.user.id := by
  refine ⟨{ user := { id := s.db.store.nextId, email := req.email, name := req.name } },
          { db := { s.db with store := (s.db.store.insertUser req.email req.name).2 } },
          { user := { id := s.db.store.nextId + 1, email := req.email, name := req.name } },
          { db := { s.db with store :=
              (((s.db.store.insertUser req.email req.name).2).insertUser req.email req.name).2 } },
          ?_, ?_, rfl, rfl, rfl, rfl, ?_⟩
  · simp [Service.CreateUser, SqlDB.insertUserReturningId, hok, DB.insertUser, SqlValue.asInt]
  · simp [Service.CreateUser, SqlDB.insertUserReturningId, hok, DB.insertUser, SqlValue.asInt]
  · simp only [ne_eq]
    omega

/-- Witness for claim C4 at a concrete connected service. -/
theorem createUser_duplicate_emails_distinct_ids_witness :
    ∃ resp1 s1 resp2 s2,
      Service.CreateUser { db := { connOk := true, store := initialDB } }
          { email := "dup@example.com", name := "Dup" } = Except.ok (resp1, s1) ∧
      Service.CreateUser s1
          { email := "dup@example.com", name := "Dup" } = Except.ok (resp2, s2) ∧
      resp1.user.email = "dup@example.com" ∧ resp2.user.email = "dup@example.com" ∧
      resp1.user.name = "Dup" ∧ resp2.user.name = "Dup" ∧
      resp1.user.id ≠ resp2.user.id :=
  createUser_duplicate_emails_distinct_ids
    { db := { connOk := true, store := initialDB } }
    { email := "dup@example.com", name := "Dup" } rfl

/-- Claim C1: for every (email, name) pair, on a connected, well-formed
store, `CreateUser` followed by `ListUsers` succeeds and the returned
sequence contains exactly one entity carrying that email, that name and
the freshly assigned identifier; the assigned identifier differs from the
id of every row that existed before the call (previously unused). -/
theorem createUser_then_listUsers_exactly_one
    (s : Service) (req : CreateUserRequest)
    (hok : s.db.connOk = true) (hwf : s.db.store.WF) :
    ∃ resp s2 users,
      Service.CreateUser s req = Except.ok (resp, s2) ∧
      Service.ListUsers s2 ListUsersRequest.mk = Except.ok { users := users } ∧
      users.countP (fun u =>
          u.email == req.email && u.name == req.name && u.id == resp.user.id) = 1 ∧
      (∀ r ∈ s.db.store.rows, ∀ i : Int, r.idCol = SqlValue.int i → i ≠ resp.user.id) := by
  obtain ⟨us, hscan, hbound⟩ :=
    scanRows_of_bounded s.db.store.nextId s.db.store.rows hwf
  refine ⟨{ user := { id := s.db.store.nextId, email := req.email, name := req.name } },
          { db := { s.db with store := (s.db.store.insertUser req.email req.name).2 } },
          us ++ [{ id := s.db.store.nextId, email := req.email, name := req.name }],
          ?_, ?_, ?_, ?_⟩
  · simp [Service.CreateUser, SqlDB.insertUserReturningId, hok, DB.insertUser, SqlValue.asInt]
  · simp only [Service.ListUsers, SqlDB.queryUsersRows, DB.insertUser, hok, if_true]
    rw [scanRows_append, hscan]
    simp [scanRows, scanUser, SqlValue.asInt, SqlValue.asString]
  · show (us ++ [({ id := s.db.store.nextId, email := req.email, name := req.name } : User)]).countP
        (fun (u : User) => u.email == req.email && u.name == req.name &&
          u.id == s.db.store.nextId) = 1
    rw [List.countP_append]
    have h0 : us.countP (fun u =>
        u.email == req.email && u.name == req.name && u.id == s.db.store.nextId) = 0 := by
      rw [List.countP_eq_zero]
      intro u hu
      have hu' := hbound u hu
      simp only [Bool.and_eq_true, beq_iff_eq, not_and]
      intro _ _
      omega
    rw [h0]
    simp [List.countP_cons]
  · intro r hr i hi
    obtain ⟨j, hj, hlt⟩ := hwf r hr
    rw [hi] at hj
    have hij : i = j := by injection hj
    show i ≠ s.db.store.nextId
    omega

/-- Witness for claim C1 at the freshly migrated empty database. -/
theorem createUser_then_listUsers_exactly_one_witness :
    ∃ resp s2 users,
      Service.CreateUser { db := { connOk := true, store := initialDB } }
          { email := "jdoe@example.com", name := "John Doe" } = Except.ok (resp, s2) ∧
      Service.ListUsers s2 ListUsersRequest.mk = Except.ok { users := users } ∧
      users.countP (fun u =>
          u.email == "jdoe@example.com" && u.name == "John Doe" && u.id == resp.user.id) = 1 ∧
      (∀ r ∈ initialDB.rows, ∀ i : Int, r.idCol = SqlValue.int i → i ≠ resp.user.id) :=
  createUser_then_listUsers_exactly_one
    { db := { connOk := true, store := initialDB } }
    { email := "jdoe@example.com", name := "John Doe" } rfl
    (fun r hr => absurd hr (List.not_mem_nil r))

/-- A corrupted stored row whose id column is not numeric, as in the
scan-error test case of `list_users_test.go`. -/
def corruptRow : Row :=
  { idCol := SqlValue.text "invalid",
    emailCol := SqlValue.text "test@example.com",
    nameCol := SqlValue.text "Test" }

/-- Claim C3: when some stored row fails to decode (for example a
non-numeric id column), `ListUsers` returns the decoding error and not a
sequence — in particular it neither skips the malformed row nor returns
the rows decoded before the failure. -/
theorem listUsers_fails_on_undecodable_row
    (s : Service) (req : ListUsersRequest) (r : Row)
    (hok : s.db.connOk = true) (hr : r ∈ s.db.store.rows)
    (hbad : scanUser r = none) :
    Service.ListUsers s req = Except.error StoreError.scanError := by
  simp [Service.ListUsers, SqlDB.queryUsersRows, hok,
        scanRows_none_of_bad s.db.store.rows r hr hbad]

/-- Witness for claim C3: a table holding one sound row and one corrupted
row makes `ListUsers` fail with the decoding error. -/
theorem listUsers_fails_on_undecodable_row_witness :
    scanUser corruptRow = none ∧
    Service.ListUsers
        { db := { connOk := true,
                  store := { rows := [{ idCol := SqlValue.int 1,
                                        emailCol := SqlValue.text "john.doe@example.com",
                                        nameCol := SqlValue.text "John Doe" },
                                      corruptRow],
                             nextId := 3 } } }
        ListUsersRequest.mk = Except.error StoreError.scanError :=
  ⟨by decide,
   listUsers_fails_on_undecodable_row
     { db := { connOk := true,
               store := { rows := [{ idCol := SqlValue.int 1,
                                     emailCol := SqlValue.text "john.doe@example.com",
                                     nameCol := SqlValue.text "John Doe" },
                                   corruptRow],
                          nextId := 3 } } }
     ListUsersRequest.mk corruptRow rfl (by simp) (by decide)⟩

/-- Claim C9: the RPC facade is an identity over the record store: for
every state and request, `UsersServer.CreateUser` returns exactly the
result of `Database.CreateUser` and `UsersServer.ListUsers` returns
exactly the result of `Database.GetUsers` — the same error value on
failure, the same response on success, with no translation, wrapping or
retry. -/
theorem usersServer_is_identity_over_store
    (s : UsersServer) (req : CreateUserRequest) (lreq : ListUsersRequest) :
    UsersServer.CreateUser s req = Database.CreateUser s.db req ∧
    UsersServer.ListUsers s lreq = Database.GetUsers s.db :=
  ⟨rfl, rfl⟩

/-- The consecutive identifier sequence `start, start+1, ...` of the given
length: the spec's description of what `nextval('seq_users_id')` hands
out. -/
def idSeq : Int → Nat → List Int
  | _, 0 => []
  | s, n + 1 => s :: idSeq (s + 1) n

/-- Every member of `idSeq s n` is at least `s`. -/
theorem idSeq_mem_ge : ∀ (n : Nat) (s x : Int), x ∈ idSeq s n → s ≤ x := by
  intro n
  induction n with
  | zero => intro s x hx; exact absurd hx (List.not_mem_nil x)
  | succ m ih =>
    intro s x hx
    rcases List.mem_cons.mp hx with h1 | h2
    · omega
    · have := ih (s + 1) x h2
      omega

/-- The identifier sequence is strictly increasing. -/
theorem idSeq_pairwise (n : Nat) : ∀ s : Int,
    List.Pairwise (fun a b : Int => a < b) (idSeq s n) := by
  induction n with
  | zero => intro s; exact List.Pairwise.nil
  | succ m ih =>
    intro s
    refine List.Pairwise.cons ?_ (ih (s + 1))
    intro x hx
    have := idSeq_mem_ge m (s + 1) x hx
    omega

/-- A run of sequential `CreateUser` inserts against the store, recording
the identifier each insert assigns: the fold of `DB.insertUser` over a
list of (email, name) requests. -/
def DB.runCreates : DB → List (String × String) → DB × List Int
  | db, [] => (db, [])
  | db, (email, name) :: rest =>
    let next := DB.runCreates (db.insertUser email name).2 rest
    (next.1, db.nextId :: next.2)

/-- The identifiers a run assigns form the consecutive sequence beginning
at the store's current counter. -/
theorem runCreates_ids :
    ∀ (reqs : List (String × String)) (db : DB),
      (DB.runCreates db reqs).2 = idSeq db.nextId reqs.length := by
  intro reqs
  induction reqs with
  | nil => intro db; rfl
  | cons hd tl ih =>
    intro db
    cases hd with
    | mk email name =>
      simp [DB.runCreates, ih, DB.insertUser, idSeq, List.length_cons]

/-- A run leaves every pre-existing row in place and appends the new rows
after them, the new rows carrying exactly the assigned identifiers. -/
theorem runCreates_rows :
    ∀ (reqs : List (String × String)) (db : DB),
      ∃ newRows : List Row,
        (DB.runCreates db reqs).1.rows = db.rows ++ newRows ∧
        newRows.map Row.idCol = ((DB.runCreates db reqs).2).map SqlValue.int := by
  intro reqs
  induction reqs with
  | nil =>
    intro db
    exact ⟨[], by simp [DB.runCreates], by simp [DB.runCreates]⟩
  | cons hd tl ih =>
    intro db
    cases hd with
    | mk email name =>
      obtain ⟨tailRows, hrows, hids⟩ := ih (db.insertUser email name).2
      refine ⟨{ idCol := SqlValue.int db.nextId, emailCol := SqlValue.text email,
                nameCol := SqlValue.text name } :: tailRows, ?_, ?_⟩
      · simp only [DB.runCreates]
        rw [hrows]
        simp [DB.insertUser]
      · simp only [DB.runCreates, List.map_cons]
        rw [hids]

/-- Claim C6: starting from the freshly migrated store, a run of
`CreateUser` inserts assigns the identifiers 1, 2, 3, ... in order: the
first assigned identifier is 1, every later one is strictly greater than
all earlier ones (so none is ever reused), already-stored rows are left
untouched by later inserts (identifiers are immutable once assigned),
and the rows end up carrying exactly the assigned identifiers. -/
theorem identifiers_monotone_from_one (reqs : List (String × String)) :
    (DB.runCreates initialDB reqs).2 = idSeq 1 reqs.length ∧
    List.Pairwise (fun a b : Int => a < b) (DB.runCreates initialDB reqs).2 ∧
    (DB.runCreates initialDB reqs).1.rows.map Row.idCol =
      ((DB.runCreates initialDB reqs).2).map SqlValue.int ∧
    (∀ db : DB, ∃ newRows : List Row,
      (DB.runCreates db reqs).1.rows = db.rows ++ newRows ∧
      newRows.map Row.idCol = ((DB.runCreates db reqs).2).map SqlValue.int) := by
  refine ⟨runCreates_ids reqs initialDB, ?_, ?_, fun db => runCreates_rows reqs db⟩
  · rw [runCreates_ids reqs initialDB]
    exact idSeq_pairwise reqs.length initialDB.nextId
  · obtain ⟨newRows, hrows, hids⟩ := runCreates_rows reqs initialDB
    rw [hrows]
    have hnil : initialDB.rows = [] := rfl
    rw [hnil, List.nil_append, hids]

/-- Outcome of `m.Up()` from golang-migrate: all migrations applied, no
pending change (`migrate.ErrNoChange`), or a failure message. -/
inductive UpResult where
  | upOk
  | upNoChange
  | upErr (msg : String)
deriving DecidableEq, Repr

/-- `runMigrations` from `cmd/server/main.go`: creating the migrate
instance can fail; then `m.Up()` is an error only when it is neither nil
nor `migrate.ErrNoChange` — the no-change outcome is treated as success. -/
def runMigrations (newInstanceErr : Option String) (up : UpResult) :
    Except String Unit :=
  match newInstanceErr with
  | some e => Except.error ("failed to create migration instance: " ++ e)
  | none =>
    match up with
    | UpResult.upErr e => Except.error ("failed to run migrations: " ++ e)
    | _ => Except.ok ()

/-- How far `main` gets during startup: it either exits (status 1) before
`net.Listen` is ever called, exits at the listener bind, or reaches
serving. -/
inductive StartupResult where
  | exitedBeforeListen (code : Nat)
  | exitedAtListen (code : Nat)
  | listening
deriving DecidableEq, Repr

/-- The startup order of `main` in `cmd/server/main.go`: run the
migrations first; on a migration error log and `os.Exit(1)` without
creating any listener; otherwise create the gRPC listener, exiting with
status 1 if the bind fails. -/
def startupPhase (newInstanceErr : Option String) (up : UpResult)
    (listenOk : Bool) : StartupResult :=
  match runMigrations newInstanceErr up with
  | Except.error _ => StartupResult.exitedBeforeListen 1
  | Except.ok _ =>
    if listenOk then StartupResult.listening
    else StartupResult.exitedAtListen 1

/-- Claim C7: a migration run that reports the schema already current
(`ErrNoChange`) is treated as a successful no-op and startup proceeds to
serve, while any actual migration failure (creating the instance or
applying a migration) makes the process exit with status 1 before any
listener is opened. -/
theorem migrations_no_change_is_noop_and_failure_is_fatal :
    runMigrations none UpResult.upNoChange = Except.ok () ∧
    startupPhase none UpResult.upNoChange true = StartupResult.listening ∧
    (∀ (e : String) (listenOk : Bool),
      startupPhase none (UpResult.upErr e) listenOk =
        StartupResult.exitedBeforeListen 1) ∧
    (∀ (e : String) (up : UpResult) (listenOk : Bool),
      startupPhase (some e) up listenOk = StartupResult.exitedBeforeListen 1) :=
  ⟨rfl, rfl, fun _ _ => rfl, fun _ _ _ => rfl⟩

/-- One observable action of the shutdown goroutine of
`cmd/server/main.go`. -/
inductive ShutdownEvent where
  | httpShutdown (timeoutSeconds : Nat)
  | grpcGracefulStop
  | storeClose
  | traceFlush
  | metricsFlush
  | logError (msg : String)
deriving DecidableEq, Repr

/-- The fixed HTTP drain timeout: `context.WithTimeout(...,
10*time.Second)` around `gwServer.Shutdown`. -/
def drainTimeoutSeconds : Nat := 10

/-- Environment of the signal handler: which shutdown steps fail, and
whether a meter provider was created at startup (`mp != nil`). -/
structure ShutdownEnv where
  httpErr : Option String
  storeErr : Option String
  traceErr : Option String
  metricsErr : Option String
  hasMeterProvider : Bool
deriving DecidableEq, Repr

/-- The `if err := ...; err != nil { slog.Error(...) }` pattern: a failing
step only contributes a log line. -/
def logIfErr : Option String → List ShutdownEvent
  | none => []
  | some e => [ShutdownEvent.logError e]

/-- The signal-handler goroutine of `cmd/server/main.go`, run on SIGINT or
SIGTERM: shut down the HTTP gateway under the 10-second drain timeout
(logging a failure), gracefully stop the gRPC server, close the users
service's store connection — exiting with status 1 if that close fails —
then shut down the trace provider and, when present, the meter provider,
logging but otherwise ignoring their failures. The result is the emitted
event trace and the exit status the handler itself forces, if any. -/
def signalHandler (env : ShutdownEnv) : List ShutdownEvent × Option Nat :=
  let httpPart := ShutdownEvent.httpShutdown drainTimeoutSeconds :: logIfErr env.httpErr
  let grpcPart := [ShutdownEvent.grpcGracefulStop]
  match env.storeErr with
  | some e =>
    (httpPart ++ grpcPart ++ [ShutdownEvent.storeClose, ShutdownEvent.logError e], some 1)
  | none =>
    let tracePart := ShutdownEvent.traceFlush :: logIfErr env.traceErr
    let metricsPart :=
      if env.hasMeterProvider
      then ShutdownEvent.metricsFlush :: logIfErr env.metricsErr
      else []
    (httpPart ++ grpcPart ++ [ShutdownEvent.storeClose] ++ tracePart ++ metricsPart, none)

/-- Marks the four substantial shutdown steps, as opposed to log lines. -/
def ShutdownEvent.isStep : ShutdownEvent → Bool
  | ShutdownEvent.logError _ => false
  | _ => true

/-- Claim C8: on a termination signal the shutdown steps happen in the
fixed order HTTP gateway drain (bounded by the 10-second timeout), then
gRPC graceful stop, then store close, then telemetry flushes; a
store-close failure forces exit status 1 (skipping the telemetry steps),
while telemetry-flush failures never force an exit status — whatever the
telemetry outcomes, the handler's exit status depends only on the store
close. -/
theorem shutdown_steps_in_fixed_order (env : ShutdownEnv) :
    (signalHandler env).1.filter ShutdownEvent.isStep =
      ([ShutdownEvent.httpShutdown drainTimeoutSeconds,
        ShutdownEvent.grpcGracefulStop,
        ShutdownEvent.storeClose] ++
       (if env.storeErr = none
        then ShutdownEvent.traceFlush ::
          (if env.hasMeterProvider then [ShutdownEvent.metricsFlush] else [])
        else [])) ∧
    (signalHandler env).2 = (if env.storeErr = none then none else some 1) := by
  obtain ⟨httpErr, storeErr, traceErr, metricsErr, hasMeter⟩ := env
  cases storeErr <;> cases httpErr <;> cases traceErr <;> cases metricsErr <;>
    cases hasMeter <;>
    simp [signalHandler, logIfErr, ShutdownEvent.isStep, List.filter_append, List.filter]

/-- `os.Getenv` over a modelled environment: an unset variable reads as
the empty string. -/
def osGetenv (env : String → Option String) (key : String) : String :=
  (env key).getD ""

/-- `getEnvOrDefault` from `cmd/server/main.go`: use the environment value
only when it is non-empty, otherwise the default. -/
def getEnvOrDefault (env : String → Option String) (key defaultValue : String) :
    String :=
  let value := osGetenv env key
  if value ≠ "" then value else defaultValue

/-- Claim C10: a configuration environment variable that is unset or set
to the empty string resolves to the documented default, and a non-empty
value is used as given. -/
theorem getEnvOrDefault_empty_is_unset
    (env : String → Option String) (key defaultValue : String) :
    ((env key = none ∨ env key = some "") →
      getEnvOrDefault env key defaultValue = defaultValue) ∧
    (∀ v : String, env key = some v → v ≠ "" →
      getEnvOrDefault env key defaultValue = v) := by
  constructor
  · intro h
    rcases h with h | h <;> simp [getEnvOrDefault, osGetenv, h]
  · intro v hv hne
    simp [getEnvOrDefault, osGetenv, hv, hne]

/-- Witness for claim C10: with `DB_HOST` set to the empty string the
default `localhost` is used, and with `DB_HOST` set to `db.internal` that
value is used. -/
theorem getEnvOrDefault_empty_is_unset_witness :
    getEnvOrDefault (fun _ => some "") "DB_HOST" "localhost" = "localhost" ∧
    getEnvOrDefault (fun _ => some "db.internal") "DB_HOST" "localhost" = "db.internal" :=
  ⟨(getEnvOrDefault_empty_is_unset (fun _ => some "") "DB_HOST" "localhost").1
      (Or.inr rfl),
   (getEnvOrDefault_empty_is_unset (fun _ => some "db.internal") "DB_HOST" "localhost").2
      "db.internal" rfl (by decide)⟩

end ApiTemplate
